import Mathlib

/-!
# Conformance suite of the distribution spec: flags, fixtures and the discovery checks

A shallow embedding of `conformance/setup.go` and `conformance/03_discovery_test.go`.

Conventions of the embedding.

* A Go `string` is a Lean `String`; a Go `[]byte` is a `List Char`, one list element per
  byte, so that `[]byte(s)` is `s.toList`, `len` is `List.length` and `b[:k]`, `b[k:]` are
  `List.take k`, `List.drop k`.  Every literal of the source is ASCII, for which this is exact.
* `os.Getenv` is a function `Env := String → String` returning `""` for an unset variable.
* Go's `int` is the 64-bit one (the flag constants `1 << 35 ..` do not fit a 32-bit `int`, so
  the package only builds there); the flag words are natural numbers below `2 ^ 39`, lengths
  and indices are integers.
* `range testMap` visits the four entries in an unspecified order: the functions that range
  over the map take the order of traversal as an argument `order`, and the theorems hold for
  every `order` that is a permutation of `testMap`.
* `godigest.FromBytes(b).String()` is an argument `Hash : List Char → String`.
* The registry is an argument `Do : Request → DoResult`, the answer of `client.Do` to each
  request.  Within one step no two requests of the suite are equal, so a function of the
  request describes every sequence of answers a step can see.
* `json.Unmarshal(body, &TagList{})` is an argument `unmarshal : List Char → Option TagList`,
  `none` standing for a non-nil error.
-/

set_option maxRecDepth 100000

namespace Conformance

/-! ## setup.go: constants -/

/-- The process environment as seen through `os.Getenv`. -/
abbrev Env := String → String

/-- The decoded shape of a listing response. -/
structure TagList where
  Name : String
  Tags : List String
deriving DecidableEq, Repr

def envTrue : String := "1"

def envVarRootURL : String := "OCI_ROOT_URL"

def envVarNamespace : String := "OCI_NAMESPACE"

def envVarUsername : String := "OCI_USERNAME"

def envVarPassword : String := "OCI_PASSWORD"

def envVarDebug : String := "OCI_DEBUG"

def envVarPull : String := "OCI_TEST_PULL"

def envVarPush : String := "OCI_TEST_PUSH"

def envVarContentDiscovery : String := "OCI_TEST_CONTENT_DISCOVERY"

def envVarContentManagement : String := "OCI_TEST_CONTENT_MANAGEMENT"

def envVarBlobDigest : String := "OCI_BLOB_DIGEST"

def envVarManifestDigest : String := "OCI_MANIFEST_DIGEST"

def envVarTagName : String := "OCI_TAG_NAME"

def envVarTagList : String := "OCI_TAG_LIST"

def envVarHideSkippedWorkflows : String := "OCI_HIDE_SKIPPED_WORKFLOWS"

def testTagName : String := "tagtest0"

/-- The constant `pull = 1 << iota`: it is the 36th constant of its `const` block, so `iota`
is 35 there, and the three constants after it repeat the expression with 36, 37 and 38. -/
def pull : Nat := 1 <<< 35

def push : Nat := 1 <<< 36

def contentDiscovery : Nat := 1 <<< 37

def contentManagement : Nat := 1 <<< 38

/-- The entries of the map `testMap`, in the order of the source text. -/
def testMap : List (String × Nat) :=
  [ (envVarPull, pull),
    (envVarPush, push),
    (envVarContentDiscovery, contentDiscovery),
    (envVarContentManagement, contentManagement) ]

/-- The error codes, `errorCodes[BLOB_UNKNOWN] ..`, indexed by the constants `0 .. 14`. -/
def errorCodes : List String :=
  [ "BLOB_UNKNOWN", "BLOB_UPLOAD_INVALID", "BLOB_UPLOAD_UNKNOWN", "DIGEST_INVALID",
    "MANIFEST_BLOB_UNKNOWN", "MANIFEST_INVALID", "MANIFEST_UNKNOWN", "MANIFEST_UNVERIFIED",
    "NAME_INVALID", "NAME_UNKNOWN", "SIZE_INVALID", "TAG_INVALID", "UNAUTHORIZED", "DENIED",
    "UNSUPPORTED" ]

/-! ## setup.go: the package variables and `init` -/

/-- The package-level variables that `init` assigns (the HTTP client and its debug writer,
which belong to the transport library, are left out). -/
structure Globals where
  blobA : List Char
  blobALength : String
  blobADigest : String
  blobB : List Char
  blobBDigest : String
  blobBChunk1 : List Char
  blobBChunk1Length : String
  blobBChunk2 : List Char
  blobBChunk2Length : String
  blobBChunk1Range : String
  blobBChunk2Range : String
  blobDigest : String
  configContent : List Char
  configContentLength : String
  dummyDigest : String
  manifestContent : List Char
  invalidManifestContent : List Char
  manifestDigest : String
  nonexistentManifest : String
  reportJUnitFilename : String
  reportHTMLFilename : String
  testsToRun : Nat
  suiteDescription : String
  runPullSetup : Bool
  runPushSetup : Bool
  runContentDiscoverySetup : Bool
  runContentManagementSetup : Bool
deriving Inhabited

/-- The function `strconv.Itoa`, also the verb `%d` of `fmt.Sprintf`. -/
def Itoa (i : Int) : String := toString i

/-- The loop `for envVar, enableTest := range testMap` of `init`, from `testsToRun = 0`. -/
def resolveTestsToRun (env : Env) (order : List (String × Nat)) : Nat :=
  order.foldl (fun testsToRun kv =>
    if env kv.1 = envTrue then testsToRun ||| kv.2 else testsToRun) 0

/-- The raw string literal assigned to `configContent`. -/
def configContentLiteral : String :=
  "\n\x7b\n    \"architecture\": \"amd64\",\n    \"os\": \"linux\",\n    \"rootfs\": \x7b\n        \"diff_ids\": [],\n        \"type\": \"layers\"\n    \x7d\n\x7d\n"

/-- The call `fmt.Sprintf(<manifest template>, blobDigest, configContentLength)` of `init`:
the template has the two verbs `%s`, the first for the digest and the second for the size. -/
def manifestSprintf (blobDigest configContentLength : String) : String :=
  "\x7b \"mediaType\": \"application/vnd.oci.image.manifest.v1+json\", \"config\":  \x7b \"digest\": \""
    ++ blobDigest ++
  "\", \"mediaType\": \"application/vnd.oci.image.config.v1+json\", \"size\": "
    ++ configContentLength ++
  " \x7d, \"layers\": [], \"schemaVersion\": 2 \x7d"

/-- The function `init`.  `newClientErr` says whether `reggie.NewClient` returned an error,
in which case `init` panics (`none`). -/
def init (env : Env) (order : List (String × Nat)) (Hash : List Char → String)
    (newClientErr : Bool) : Option Globals :=
  let testsToRun := resolveTestsToRun env order
  if newClientErr then none else
  let configContent := configContentLiteral.toList
  let configContentLength := Itoa configContent.length
  let blobDigest := Hash configContent
  let blobDigest := if env envVarBlobDigest ≠ "" then env envVarBlobDigest else blobDigest
  let manifestContent := (manifestSprintf blobDigest configContentLength).toList
  let manifestDigest := Hash manifestContent
  let manifestDigest :=
    if env envVarManifestDigest ≠ "" then env envVarManifestDigest else manifestDigest
  let blobA := "NBA Jam on my NBA toast".toList
  let blobB := "Hello, how are you today?".toList
  let blobBChunk1 := blobB.take 3
  let blobBChunk2 := blobB.drop 3
  let runPullSetup :=
    if env envVarTagName ≠ "" ∧ env envVarManifestDigest ≠ "" ∧ env envVarBlobDigest ≠ ""
    then false else true
  let runContentDiscoverySetup := if env envVarTagList ≠ "" then false else true
  some
    { blobA := blobA
      blobALength := Itoa blobA.length
      blobADigest := Hash blobA
      blobB := blobB
      blobBDigest := Hash blobB
      blobBChunk1 := blobBChunk1
      blobBChunk1Length := Itoa blobBChunk1.length
      blobBChunk1Range := "0-" ++ Itoa ((blobBChunk1.length : Int) - 1)
      blobBChunk2 := blobBChunk2
      blobBChunk2Length := Itoa blobBChunk2.length
      blobBChunk2Range :=
        Itoa blobBChunk1.length ++ "-" ++ Itoa ((blobB.length : Int) - 1)
      blobDigest := blobDigest
      configContent := configContent
      configContentLength := configContentLength
      dummyDigest := Hash "hello world".toList
      manifestContent := manifestContent
      invalidManifestContent := "blablabla".toList
      manifestDigest := manifestDigest
      nonexistentManifest := ".INVALID_MANIFEST_NAME"
      reportJUnitFilename := "junit.xml"
      reportHTMLFilename := "report.html"
      testsToRun := testsToRun
      suiteDescription := "OCI Distribution Conformance Tests"
      runPullSetup := runPullSetup
      runPushSetup := true
      runContentDiscoverySetup := runContentDiscoverySetup
      runContentManagementSetup := true }

/-! ## setup.go: skipping -/

/-- The function `userDisabled`: `!(test&testsToRun > 0)`. -/
def userDisabled (testsToRun : Nat) (test : Nat) : Bool :=
  !decide (test &&& testsToRun > 0)

/-- The first line that `generateSkipReport` writes. -/
def skipReportHeader : String :=
  "you have skipped this test; if this is an error, check your environment variable settings:\n"

/-- The function `generateSkipReport`: the buffer after the header and one
`Fprintf(buf, "\t%s=%s\n", k, os.Getenv(k))` per key of `testMap`. -/
def generateSkipReport (env : Env) (order : List (String × Nat)) : String :=
  order.foldl (fun buf kv => buf ++ ("\t" ++ kv.1 ++ "=" ++ env kv.1 ++ "\n")) skipReportHeader

/-- How a step of the suite ends: the body returns (`pass`), an `Expect` is violated
(`fail`), `g.Skip` is called with a message (`skip`), or the body panics at run time, which
the runner also reports as a failure of the step (`panicked`). -/
inductive Outcome where
  | pass
  | fail
  | skip (report : String)
  | panicked
deriving DecidableEq, Repr

/-- The function `SkipIfDisabled`: `some (Outcome.skip report)` when it calls
`g.Skip(report)`, which aborts the step with that outcome, and `none` when it returns. -/
def SkipIfDisabled (testsToRun : Nat) (env : Env) (order : List (String × Nat))
    (test : Nat) : Option Outcome :=
  if userDisabled testsToRun test then some (Outcome.skip (generateSkipReport env order))
  else none

/-- The function `RunOnlyIf`. -/
def RunOnlyIf (v : Bool) : Option Outcome :=
  if !v then some (Outcome.skip "you have skipped this test.") else none

/-- The function `RunOnlyIfNot`. -/
def RunOnlyIfNot (v : Bool) : Option Outcome :=
  if v then some (Outcome.skip "you have skipped this test.") else none

/-- The function `getTagList`, on a response that is not nil: the tags of the decoded body,
and the empty slice when `json.Unmarshal` returns an error. -/
def getTagList (unmarshal : List Char → Option TagList) (body : List Char) : List String :=
  match unmarshal body with
  | none => []
  | some tagList => tagList.Tags

/-- The function `getTagNameFromResponse`. -/
def getTagNameFromResponse (unmarshal : List Char → Option TagList)
    (lastResponse : Option (List Char)) : String :=
  match lastResponse with
  | none => ""
  | some jsonData =>
    match unmarshal jsonData with
    | some tl => if 0 < tl.Tags.length then tl.Tags.headD "" else ""
    | none => ""

/-! ## The transport, as the discovery test uses it -/

/-- A request handed to `client.Do`: what `client.NewRequest` and the setters put in it. -/
structure Request where
  method : String
  path : String
  reference : Option String
  headers : List (String × String)
  queryParams : List (String × String)
  body : List Char
deriving DecidableEq, Repr

/-- A response that is not nil: `StatusCode()`, `Header().Get(..)` and `Body()`. -/
structure Response where
  statusCode : Int
  header : String → String
  body : List Char

/-- The pair `(resp, err)` returned by `client.Do`: `resp = none` is a nil pointer, `err`
says that the error is not nil. -/
structure DoResult where
  resp : Option Response
  err : Bool

/-- The call `client.NewRequest(method, path)`. -/
def NewRequest (method path : String) : Request :=
  { method := method, path := path, reference := none, headers := [], queryParams := [],
    body := [] }

/-- The option `reggie.WithReference(ref)`. -/
def Request.WithReference (req : Request) (ref : String) : Request :=
  { req with reference := some ref }

def Request.SetHeader (req : Request) (k v : String) : Request :=
  { req with headers := req.headers ++ [(k, v)] }

def Request.SetQueryParam (req : Request) (k v : String) : Request :=
  { req with queryParams := req.queryParams ++ [(k, v)] }

def Request.SetBody (req : Request) (b : List Char) : Request :=
  { req with body := b }

/-- The index expression `xs[i]` of Go on a slice: `none` is the run-time panic
"index out of range". -/
def index {α : Type} (xs : List α) (i : Int) : Option α :=
  if 0 ≤ i ∧ i < (xs.length : Int) then xs.get? i.toNat else none

/-! ## 03_discovery_test.go -/

/-- The variables shared by the steps of `test03Discovery`: the closure variables `numTags`,
`lastResponse`, `firstTag` and the package variable `tagList`. -/
structure DiscoveryState where
  numTags : Int
  lastResponse : Option Response
  firstTag : String
  tagList : List String

/-- The variables before the first step runs: `var numTags = 4`, the rest zero values. -/
def DiscoveryState.initial : DiscoveryState :=
  { numTags := 4, lastResponse := none, firstTag := "", tagList := [] }

/-- What a step leaves behind: how it ended, the shared variables, and the requests it
handed to `client.Do`, in order. -/
structure StepResult where
  outcome : Outcome
  state : DiscoveryState
  requests : List Request

/-- The body of the loop `for i := 0; i < numTags; i++` of the step "Push tags to
repository", over the values of `i` still to come. -/
def pushTagsLoop (Do : Request → DoResult) (manifestContent : List Char) :
    List Nat → DiscoveryState → List Request → StepResult
  | [], st, reqs => ⟨Outcome.pass, st, reqs⟩
  | i :: rest, st, reqs =>
    let tag := "test" ++ Itoa i
    let st := if i = 0 then { st with firstTag := tag } else st
    let req := (((NewRequest "PUT" "/v2/<name>/manifests/<reference>").WithReference tag).SetHeader
      "Content-Type" "application/vnd.oci.image.manifest.v1+json").SetBody manifestContent
    let r := Do req
    let reqs := reqs ++ [req]
    if r.err then ⟨Outcome.fail, st, reqs⟩ else
    match r.resp with
    | none => ⟨Outcome.panicked, st, reqs⟩
    | some resp =>
      if resp.header "Location" = "" then ⟨Outcome.fail, st, reqs⟩ else
      if resp.statusCode ≠ 201 then ⟨Outcome.fail, st, reqs⟩ else
      pushTagsLoop Do manifestContent rest st reqs

/-- The step "Push tags to repository". -/
def pushTags (g : Globals) (env : Env) (order : List (String × Nat)) (Do : Request → DoResult)
    (st : DiscoveryState) : StepResult :=
  match SkipIfDisabled g.testsToRun env order push with
  | some skipped => ⟨skipped, st, []⟩
  | none => pushTagsLoop Do g.manifestContent (List.range st.numTags.toNat) st []

/-- The step "GET request to list tags should yield 200 response".  `discovery` is the flag
constant the step passes to `SkipIfDisabled`; the two files do not declare it, so it is an
argument here and in the three steps below. -/
def listTags (g : Globals) (env : Env) (order : List (String × Nat)) (discovery : Nat)
    (unmarshal : List Char → Option TagList) (Do : Request → DoResult)
    (st : DiscoveryState) : StepResult :=
  match SkipIfDisabled g.testsToRun env order discovery with
  | some skipped => ⟨skipped, st, []⟩
  | none =>
    let req := NewRequest "GET" "/v2/<name>/tags/list"
    let r := Do req
    if r.err then ⟨Outcome.fail, st, [req]⟩ else
    match r.resp with
    | none => ⟨Outcome.panicked, st, [req]⟩
    | some resp =>
      if resp.statusCode ≠ 200 then ⟨Outcome.fail, st, [req]⟩ else
      let st := { st with lastResponse := some resp }
      let st := { st with tagList := getTagList unmarshal resp.body }
      -- the second `Expect(err).To(BeNil())` looks at the error of `client.Do` again
      if r.err then ⟨Outcome.fail, st, [req]⟩ else
      let st := { st with numTags := st.tagList.length }
      ⟨Outcome.pass, st, [req]⟩

/-- The step "GET request to manifest URL (tag) should yield 200 response". -/
def getManifestByTag (g : Globals) (env : Env) (order : List (String × Nat)) (discovery : Nat)
    (unmarshal : List Char → Option TagList) (Do : Request → DoResult)
    (st : DiscoveryState) : StepResult :=
  match SkipIfDisabled g.testsToRun env order discovery with
  | some skipped => ⟨skipped, st, []⟩
  | none =>
    match st.lastResponse with
    | none => ⟨Outcome.panicked, st, []⟩
    | some lastResponse =>
      match unmarshal lastResponse.body with
      | none => ⟨Outcome.fail, st, []⟩
      | some tl =>
        match tl.Tags with
        | [] => ⟨Outcome.fail, st, []⟩
        | tag0 :: _ =>
          let req := ((NewRequest "GET" "/v2/<name>/manifests/<reference>").WithReference
            tag0).SetHeader "Accept" "application/vnd.oci.image.manifest.v1+json"
          let r := Do req
          if r.err then ⟨Outcome.fail, st, [req]⟩ else
          match r.resp with
          | none => ⟨Outcome.panicked, st, [req]⟩
          | some resp =>
            if resp.statusCode ≠ 200 then ⟨Outcome.fail, st, [req]⟩ else
            ⟨Outcome.pass, st, [req]⟩

/-- The step "GET number of tags should be limitable by `n` query parameter". -/
def limitByN (g : Globals) (env : Env) (order : List (String × Nat)) (discovery : Nat)
    (unmarshal : List Char → Option TagList) (Do : Request → DoResult)
    (st : DiscoveryState) : StepResult :=
  match SkipIfDisabled g.testsToRun env order discovery with
  | some skipped => ⟨skipped, st, []⟩
  | none =>
    let numResults := Int.tdiv st.numTags 2
    let req := (NewRequest "GET" "/v2/<name>/tags/list").SetQueryParam "n" (Itoa numResults)
    let r := Do req
    if r.err then ⟨Outcome.fail, st, [req]⟩ else
    match r.resp with
    | none => ⟨Outcome.panicked, st, [req]⟩
    | some resp =>
      if resp.statusCode ≠ 200 then ⟨Outcome.fail, st, [req]⟩ else
      let st := { st with tagList := getTagList unmarshal resp.body }
      if r.err then ⟨Outcome.fail, st, [req]⟩ else
      if (st.tagList.length : Int) ≠ numResults then ⟨Outcome.fail, st, [req]⟩ else
      ⟨Outcome.pass, st, [req]⟩

/-- The step "GET start of tag is set by `last` query parameter". -/
def startByLast (g : Globals) (env : Env) (order : List (String × Nat)) (discovery : Nat)
    (unmarshal : List Char → Option TagList) (Do : Request → DoResult)
    (st : DiscoveryState) : StepResult :=
  match SkipIfDisabled g.testsToRun env order discovery with
  | some skipped => ⟨skipped, st, []⟩
  | none =>
    let numResults := Int.tdiv st.numTags 2
    let req := (NewRequest "GET" "/v2/<name>/tags/list").SetQueryParam "n" (Itoa numResults)
    let r := Do req
    match r.resp with
    | none => ⟨Outcome.panicked, st, [req]⟩
    | some resp =>
      let st := { st with tagList := getTagList unmarshal resp.body }
      match index st.tagList (numResults - 1) with
      | none => ⟨Outcome.panicked, st, [req]⟩
      | some last =>
        let req2 := ((NewRequest "GET" "/v2/<name>/tags/list").SetQueryParam "n"
          (Itoa numResults)).SetQueryParam "last" last
        let r2 := Do req2
        if r2.err then ⟨Outcome.fail, st, [req, req2]⟩ else
        match r2.resp with
        | none => ⟨Outcome.panicked, st, [req, req2]⟩
        | some resp2 =>
          if resp2.statusCode ≠ 200 then ⟨Outcome.fail, st, [req, req2]⟩ else
          let st := { st with tagList := getTagList unmarshal resp2.body }
          if r2.err then ⟨Outcome.fail, st, [req, req2]⟩ else
          if ¬ (st.tagList.length : Int) ≤ numResults then ⟨Outcome.fail, st, [req, req2]⟩ else
          match index st.tagList numResults with
          | none => ⟨Outcome.panicked, st, [req, req2]⟩
          | some boundary =>
            if boundary ∈ st.tagList then ⟨Outcome.pass, st, [req, req2]⟩
            else ⟨Outcome.fail, st, [req, req2]⟩

/-! ## Auxiliary definitions and sample inputs -/

/-- One turn of the loop of `init` over `testMap`, the test on the variable already made. -/
def orFlag (isTrue : Bool) (testsToRun enableTest : Nat) : Nat :=
  if isTrue then testsToRun ||| enableTest else testsToRun

/-- An environment that sets the pull signal to the sentinel and the push signal to another
value, and nothing else. -/
def sampleEnv : Env := fun k =>
  if k = "OCI_TEST_PULL" then "1" else if k = "OCI_TEST_PUSH" then "true" else ""

/-- A digest function for the examples: the content behind the algorithm prefix. -/
def sampleHash (b : List Char) : String := "sha256:" ++ String.mk b

/-- The package variables after `init` in `sampleEnv`, the map visited last entry first. -/
def sampleGlobals : Globals :=
  (init sampleEnv testMap.reverse sampleHash false).getD default

/-- An environment that overrides the config digest. -/
def sampleEnvOverride : Env := fun k => if k = "OCI_BLOB_DIGEST" then "sha256:0123" else ""

/-- The package variables after `init` in `sampleEnvOverride`. -/
def sampleGlobalsOverride : Globals :=
  (init sampleEnvOverride testMap sampleHash false).getD default

/-- An environment that enables push and content discovery and overrides the tag list. -/
def sampleEnvTagList : Env := fun k =>
  if k = "OCI_TEST_PUSH" then "1"
  else if k = "OCI_TEST_CONTENT_DISCOVERY" then "1"
  else if k = "OCI_TAG_LIST" then "test0"
  else ""

/-- The package variables after `init` in `sampleEnvTagList`. -/
def sampleGlobalsTagList : Globals :=
  (init sampleEnvTagList testMap sampleHash false).getD default

/-- The body of a listing response with the given tags, as a registry writes it. -/
def listingBody (tags : String) : List Char :=
  ("\x7b\"name\":\"ns\",\"tags\":[" ++ tags ++ "]\x7d").toList

/-- A decoder that agrees with `json.Unmarshal` on the bodies of the sample registries:
five listings, and text that is not JSON. -/
def sampleUnmarshal (body : List Char) : Option TagList :=
  if body = listingBody "\"test0\",\"test1\",\"test2\",\"test3\"" then
    some ⟨"ns", ["test0", "test1", "test2", "test3"]⟩
  else if body = listingBody "\"test0\",\"test1\"" then some ⟨"ns", ["test0", "test1"]⟩
  else if body = listingBody "\"test2\",\"test3\"" then some ⟨"ns", ["test2", "test3"]⟩
  else if body = listingBody "\"test0\"" then some ⟨"ns", ["test0"]⟩
  else if body = listingBody "" then some ⟨"ns", []⟩
  else none

/-- A response with a status, a `Location` header and a body. -/
def sampleResponse (statusCode : Int) (location : String) (body : List Char) : Response :=
  { statusCode := statusCode,
    header := fun k => if k = "Location" then location else "",
    body := body }

/-- The answer of `client.Do` that carries a response and no error. -/
def answered (resp : Response) : DoResult := { resp := some resp, err := false }

/-- The page `[test0, test1]` of `sampleRegistry`. -/
def sampleListingFirstTwo : Response :=
  sampleResponse 200 "" (listingBody "\"test0\",\"test1\"")

/-- A response of status 200 whose body is not JSON. -/
def sampleBadResponse : Response := sampleResponse 200 "" "<html>oops</html>".toList

/-- A registry that accepts every manifest and pages its four tags `test0 .. test3` as the
distribution API asks: `n` limits the page, `last` starts it after the named tag. -/
def sampleRegistry (req : Request) : DoResult :=
  if req.method = "PUT" then answered (sampleResponse 201 "/v2/ns/manifests/sha256:0" [])
  else if req.queryParams = [] then
    answered (sampleResponse 200 "" (listingBody "\"test0\",\"test1\",\"test2\",\"test3\""))
  else if req.queryParams = [("n", "2")] then answered sampleListingFirstTwo
  else if req.queryParams = [("n", "2"), ("last", "test1")] then
    answered (sampleResponse 200 "" (listingBody "\"test2\",\"test3\""))
  else answered (sampleResponse 404 "" [])

/-- A registry that holds the single tag `test0`. -/
def sampleRegistryOneTag (req : Request) : DoResult :=
  if req.queryParams = [] then answered (sampleResponse 200 "" (listingBody "\"test0\""))
  else if req.queryParams = [("n", "0")] then
    answered (sampleResponse 200 "" (listingBody ""))
  else answered (sampleResponse 404 "" [])

/-- A registry that answers every listing with status 200 and a body that is not JSON. -/
def sampleRegistryBadBody (_req : Request) : DoResult := answered sampleBadResponse

/-- A registry that pages like `sampleRegistry` but ignores `n` on the continuation: asked
for `n=2&last=test1` it answers with all four tags. -/
def sampleRegistryLongPage (req : Request) : DoResult :=
  if req.queryParams = [("n", "2"), ("last", "test1")] then
    answered (sampleResponse 200 "" (listingBody "\"test0\",\"test1\",\"test2\",\"test3\""))
  else sampleRegistry req

/-- The shared variables after the step that lists the tags of `sampleRegistryBadBody`. -/
def sampleStateBadBodyListed : DiscoveryState :=
  (listTags sampleGlobalsTagList sampleEnvTagList testMap contentDiscovery sampleUnmarshal
    sampleRegistryBadBody DiscoveryState.initial).state

/-- The shared variables after the step that lists the tag of `sampleRegistryOneTag`. -/
def sampleStateOneTagListed : DiscoveryState :=
  (listTags sampleGlobalsTagList sampleEnvTagList testMap contentDiscovery sampleUnmarshal
    sampleRegistryOneTag DiscoveryState.initial).state

/-- The shared variables after the `n` step on `sampleRegistryOneTag`. -/
def sampleStateOneTagLimited : DiscoveryState :=
  (limitByN sampleGlobalsTagList sampleEnvTagList testMap contentDiscovery sampleUnmarshal
    sampleRegistryOneTag sampleStateOneTagListed).state

/-- The shared variables after the step that lists the tags of `sampleRegistry`. -/
def sampleStateListed : DiscoveryState :=
  (listTags sampleGlobalsTagList sampleEnvTagList testMap contentDiscovery sampleUnmarshal
    sampleRegistry DiscoveryState.initial).state

/-- The shared variables after the `n` step on `sampleRegistry`. -/
def sampleStateLimited : DiscoveryState :=
  (limitByN sampleGlobalsTagList sampleEnvTagList testMap contentDiscovery sampleUnmarshal
    sampleRegistry sampleStateListed).state

/-! ## Lemmas on `init` -/

theorem resolveTestsToRun_perm (env : Env) {order : List (String × Nat)}
    (horder : order.Perm testMap) :
    resolveTestsToRun env order = resolveTestsToRun env testMap := by
  unfold resolveTestsToRun
  apply List.Perm.foldl_eq' horder
  intro x _ y _ z
  split_ifs <;> simp [Nat.lor_assoc, Nat.lor_comm y.2 x.2]

theorem init_isSome (env : Env) (order : List (String × Nat)) (Hash : List Char → String) :
    (init env order Hash false).isSome = true := by
  simp [init]

theorem init_testsToRun {env : Env} {order : List (String × Nat)} {Hash : List Char → String}
    {e : Bool} {g : Globals} (hinit : init env order Hash e = some g) :
    g.testsToRun = resolveTestsToRun env order := by
  unfold init at hinit
  cases e <;> simp at hinit
  rw [← hinit]

theorem resolveTestsToRun_testMap (env : Env) :
    resolveTestsToRun env testMap =
      orFlag (decide (env envVarContentManagement = envTrue))
        (orFlag (decide (env envVarContentDiscovery = envTrue))
          (orFlag (decide (env envVarPush = envTrue))
            (orFlag (decide (env envVarPull = envTrue)) 0 pull) push) contentDiscovery)
        contentManagement := by
  simp only [resolveTestsToRun, testMap, List.foldl, orFlag, decide_eq_true_eq]

theorem userDisabled_orFlag (b1 b2 b3 b4 : Bool) :
    userDisabled (orFlag b4 (orFlag b3 (orFlag b2 (orFlag b1 0 pull) push) contentDiscovery)
        contentManagement) pull = !b1 ∧
    userDisabled (orFlag b4 (orFlag b3 (orFlag b2 (orFlag b1 0 pull) push) contentDiscovery)
        contentManagement) push = !b2 ∧
    userDisabled (orFlag b4 (orFlag b3 (orFlag b2 (orFlag b1 0 pull) push) contentDiscovery)
        contentManagement) contentDiscovery = !b3 ∧
    userDisabled (orFlag b4 (orFlag b3 (orFlag b2 (orFlag b1 0 pull) push) contentDiscovery)
        contentManagement) contentManagement = !b4 := by
  revert b1 b2 b3 b4
  decide

theorem userDisabled_testMap (env : Env) :
    ∀ kv ∈ testMap,
      (userDisabled (resolveTestsToRun env testMap) kv.2 = false ↔ env kv.1 = envTrue) := by
  intro kv hkv
  rw [resolveTestsToRun_testMap]
  obtain ⟨h1, h2, h3, h4⟩ := userDisabled_orFlag (decide (env envVarPull = envTrue))
    (decide (env envVarPush = envTrue)) (decide (env envVarContentDiscovery = envTrue))
    (decide (env envVarContentManagement = envTrue))
  simp only [testMap, List.mem_cons, List.mem_singleton, List.mem_nil_iff, or_false] at hkv
  rcases hkv with rfl | rfl | rfl | rfl
  · rw [h1]; simp
  · rw [h2]; simp
  · rw [h3]; simp
  · rw [h4]; simp

theorem userDisabled_after_init {env : Env} {order : List (String × Nat)}
    {Hash : List Char → String} {e : Bool} {g : Globals}
    (horder : order.Perm testMap) (hinit : init env order Hash e = some g) :
    ∀ kv ∈ testMap, (userDisabled g.testsToRun kv.2 = false ↔ env kv.1 = envTrue) := by
  rw [init_testsToRun hinit, resolveTestsToRun_perm env horder]
  exact userDisabled_testMap env

/-! ## Lemmas on the skip report -/

theorem sampleGlobals_eq :
    init sampleEnv testMap.reverse sampleHash false = some sampleGlobals := rfl

/-! ## The claims -/

/-- C1: after `init`, for every environment and each of the four flags of `testMap`, the flag
is enabled (`userDisabled` is false) exactly when its environment variable is the string
`"1"`; the values `""` (unset), `"0"`, `"false"`, `"true"` and `" 1"` leave it disabled; with
no signal set all four flags are disabled; and whether a flag is enabled depends on its own
variable only: two environments that agree on it agree on the flag, whatever the other
variables hold.  This holds for every order in which `testMap` is traversed, and `init`
does return when the client is created. -/
theorem flag_enabled_iff_signal_is_one (env : Env) (order : List (String × Nat))
    (Hash : List Char → String) (e : Bool) (g : Globals)
    (horder : order.Perm testMap) (hinit : init env order Hash e = some g) :
    (init env order Hash false).isSome = true ∧
    (∀ kv ∈ testMap, (userDisabled g.testsToRun kv.2 = false ↔ env kv.1 = "1")) ∧
    (∀ kv ∈ testMap, env kv.1 ∈ ["", "0", "false", "true", " 1"] →
      userDisabled g.testsToRun kv.2 = true) ∧
    ((∀ kv ∈ testMap, env kv.1 = "") → ∀ kv ∈ testMap, userDisabled g.testsToRun kv.2 = true) ∧
    (∀ (env2 : Env) (order2 : List (String × Nat)) (Hash2 : List Char → String) (e2 : Bool)
        (g2 : Globals), order2.Perm testMap → init env2 order2 Hash2 e2 = some g2 →
      ∀ kv ∈ testMap, env2 kv.1 = env kv.1 →
        userDisabled g2.testsToRun kv.2 = userDisabled g.testsToRun kv.2) := by
  have key := userDisabled_after_init horder hinit
  have off : ∀ kv ∈ testMap, env kv.1 ≠ "1" → userDisabled g.testsToRun kv.2 = true := by
    intro kv hkv hne
    cases h : userDisabled g.testsToRun kv.2
    · exact absurd ((key kv hkv).1 h) hne
    · rfl
  refine ⟨init_isSome env order Hash, key, ?_, ?_, ?_⟩
  · intro kv hkv hval
    apply off kv hkv
    intro h1
    rw [h1] at hval
    revert hval
    decide
  · intro hall kv hkv
    apply off kv hkv
    rw [hall kv hkv]
    decide
  · intro env2 order2 Hash2 e2 g2 horder2 hinit2 kv hkv hsame
    have key2 := userDisabled_after_init horder2 hinit2
    cases h : userDisabled g.testsToRun kv.2
    · exact (key2 kv hkv).2 (hsame ▸ (key kv hkv).1 h)
    · cases hb : userDisabled g2.testsToRun kv.2
      · have := (key kv hkv).2 (hsame ▸ (key2 kv hkv).1 hb)
        rw [h] at this
        exact absurd this (by decide)
      · rfl

/-- C1, at a concrete input: in `sampleEnv`, with the map visited in reverse, the pull flag
is enabled and the push flag, whose variable holds `"true"`, is not. -/
theorem flag_enabled_iff_signal_is_one_witness :
    testMap.reverse.Perm testMap ∧
    init sampleEnv testMap.reverse sampleHash false = some sampleGlobals ∧
    (userDisabled sampleGlobals.testsToRun pull = false ↔ sampleEnv envVarPull = "1") ∧
    userDisabled sampleGlobals.testsToRun push = true :=
  have h := flag_enabled_iff_signal_is_one sampleEnv testMap.reverse sampleHash false
    sampleGlobals (List.reverse_perm testMap) sampleGlobals_eq
  ⟨List.reverse_perm testMap, sampleGlobals_eq,
    h.2.1 (envVarPull, pull) (by simp [testMap]),
    h.2.2.1 (envVarPush, push) (by simp [testMap]) (by decide)⟩

theorem init_eq_some {env : Env} {order : List (String × Nat)} {Hash : List Char → String}
    {e : Bool} {g : Globals} (hinit : init env order Hash e = some g) :
    init env order Hash false = some g := by
  cases e
  · exact hinit
  · simp [init] at hinit

theorem manifestSprintf_left_inj (d d2 l : String)
    (h : manifestSprintf d l = manifestSprintf d2 l) : d = d2 := by
  unfold manifestSprintf at h
  apply String.ext
  have hb := congrArg String.data h
  simp only [String.data_append, List.append_assoc] at hb
  exact List.append_cancel_right (List.append_cancel_left hb)

theorem manifestSprintf_right_inj (d l l2 : String)
    (h : manifestSprintf d l = manifestSprintf d l2) : l = l2 := by
  unfold manifestSprintf at h
  apply String.ext
  have hb := congrArg String.data h
  simp only [String.data_append, List.append_assoc] at hb
  exact List.append_cancel_right
    (List.append_cancel_left (List.append_cancel_left (List.append_cancel_left hb)))

/-- C4: the chunked fixture built from `blobB` is complete and contiguous.  The two chunks
concatenated are `blobB`, both are non-empty, `blobBChunk1Range` is `"0-2"`, that is `0` to
`len(chunk1)-1`, and `blobBChunk2Range` is `"3-24"`, that is `len(chunk1)` to `len(blobB)-1`,
so the second range starts right after the inclusive end of the first and the two cover the
offsets `0 .. len(blobB)-1`; the two length strings are the decimal lengths `"3"` and `"22"`,
which sum to `len(blobB) = 25`, and the width `end - start + 1` of each range is the length
of its chunk. -/
theorem chunked_fixture_complete_and_contiguous (env : Env) (order : List (String × Nat))
    (Hash : List Char → String) (e : Bool) (g : Globals)
    (hinit : init env order Hash e = some g) :
    g.blobB = "Hello, how are you today?".toList ∧
    g.blobBChunk1 ++ g.blobBChunk2 = g.blobB ∧
    g.blobBChunk1 ≠ [] ∧ g.blobBChunk2 ≠ [] ∧
    g.blobBChunk1Range = "0-" ++ Itoa ((g.blobBChunk1.length : Int) - 1) ∧
    g.blobBChunk1Range = "0-2" ∧
    g.blobBChunk2Range
      = Itoa g.blobBChunk1.length ++ "-" ++ Itoa ((g.blobB.length : Int) - 1) ∧
    g.blobBChunk2Range = "3-24" ∧
    g.blobBChunk1Length = Itoa g.blobBChunk1.length ∧ g.blobBChunk1Length = "3" ∧
    g.blobBChunk2Length = Itoa g.blobBChunk2.length ∧ g.blobBChunk2Length = "22" ∧
    g.blobBChunk1.length = 3 ∧ g.blobBChunk2.length = 22 ∧ g.blobB.length = 25 ∧
    g.blobBChunk1.length + g.blobBChunk2.length = g.blobB.length ∧
    ((g.blobBChunk1.length : Int) - 1) - 0 + 1 = g.blobBChunk1.length ∧
    ((g.blobB.length : Int) - 1) - g.blobBChunk1.length + 1 = g.blobBChunk2.length ∧
    (g.blobBChunk1.length : Int) = ((g.blobBChunk1.length : Int) - 1) + 1 := by
  have h := init_eq_some hinit
  simp only [init, Bool.false_eq_true, if_false, Option.some.injEq] at h
  subst h
  refine ⟨rfl, ?_, ?_, ?_, rfl, ?_, rfl, ?_, rfl, ?_, rfl, ?_, ?_, ?_, ?_, ?_, ?_, ?_, ?_⟩ <;>
    dsimp only <;> decide

/-- C4, at a concrete input: the fixture of `sampleGlobals`. -/
theorem chunked_fixture_complete_and_contiguous_witness :
    init sampleEnv testMap.reverse sampleHash false = some sampleGlobals ∧
    sampleGlobals.blobBChunk1 = ['H', 'e', 'l'] ∧
    sampleGlobals.blobBChunk1Range = "0-2" ∧ sampleGlobals.blobBChunk2Range = "3-24" :=
  have h := chunked_fixture_complete_and_contiguous sampleEnv testMap.reverse sampleHash false
    sampleGlobals sampleGlobals_eq
  ⟨sampleGlobals_eq, by decide, h.2.2.2.2.2.1, h.2.2.2.2.2.2.2.1⟩

/-- C5: the digest invariant of the fixtures after `init`, for every environment and digest
function `Hash`.  `blobADigest` and `blobBDigest` are the hashes of `blobA` and `blobB`; when
`OCI_BLOB_DIGEST` is empty `blobDigest` is the hash of `configContent`, and when
`OCI_MANIFEST_DIGEST` is empty `manifestDigest` is the hash of the `manifestContent` that was
built; a stored digest that differs from the hash of its bytes has its override variable
non-empty, and a non-empty override is stored verbatim. -/
theorem fixture_digest_invariant (env : Env) (order : List (String × Nat))
    (Hash : List Char → String) (e : Bool) (g : Globals)
    (hinit : init env order Hash e = some g) :
    g.blobADigest = Hash g.blobA ∧
    g.blobBDigest = Hash g.blobB ∧
    (env "OCI_BLOB_DIGEST" = "" → g.blobDigest = Hash g.configContent) ∧
    (env "OCI_MANIFEST_DIGEST" = "" → g.manifestDigest = Hash g.manifestContent) ∧
    (g.blobDigest ≠ Hash g.configContent → env "OCI_BLOB_DIGEST" ≠ "") ∧
    (g.manifestDigest ≠ Hash g.manifestContent → env "OCI_MANIFEST_DIGEST" ≠ "") ∧
    (env "OCI_BLOB_DIGEST" ≠ "" → g.blobDigest = env "OCI_BLOB_DIGEST") ∧
    (env "OCI_MANIFEST_DIGEST" ≠ "" → g.manifestDigest = env "OCI_MANIFEST_DIGEST") := by
  have h := init_eq_some hinit
  simp only [init, Bool.false_eq_true, if_false, Option.some.injEq] at h
  subst h
  dsimp only [envVarBlobDigest, envVarManifestDigest]
  refine ⟨rfl, rfl, ?_, ?_, ?_, ?_, ?_, ?_⟩
  · intro h0; simp [h0]
  · intro h0; simp [h0]
  · intro hne h0; exact hne (by simp [h0])
  · intro hne h0; exact hne (by simp [h0])
  · intro h0; simp [h0]
  · intro h0; simp [h0]

/-- C5, at a concrete input: `sampleEnv` sets no override, so the config digest of
`sampleGlobals` is the hash of the config bytes. -/
theorem fixture_digest_invariant_witness :
    init sampleEnv testMap.reverse sampleHash false = some sampleGlobals ∧
    sampleGlobals.blobDigest = sampleHash sampleGlobals.configContent ∧
    sampleGlobals.manifestDigest = sampleHash sampleGlobals.manifestContent :=
  have h := fixture_digest_invariant sampleEnv testMap.reverse sampleHash false sampleGlobals
    sampleGlobals_eq
  ⟨sampleGlobals_eq, h.2.2.1 (by decide), h.2.2.2.1 (by decide)⟩

theorem sampleGlobalsOverride_eq :
    init sampleEnvOverride testMap sampleHash false = some sampleGlobalsOverride := rfl

theorem sampleHash_injective : Function.Injective sampleHash := by
  intro a b h
  unfold sampleHash at h
  have hb := congrArg String.data h
  simp only [String.data_append] at hb
  exact List.append_cancel_left hb

/-- C6: for every environment `manifestContent` is the manifest template with the config
digest as resolved (`OCI_BLOB_DIGEST` when non-empty, else the hash of `configContent`) in the
field `config.digest` and the decimal length of `configContent` (`configContentLength`, here
`"124"`) in the field `config.size`; the non-overridden `manifestDigest` is the hash of these
bytes.  The template determines both fields: changing the digest, or the length, changes the
bytes.  So an environment resolving another config digest yields other manifest bytes, and
another non-overridden manifest digest for a digest function without collisions. -/
theorem manifest_embeds_config_digest_and_length (env : Env) (order : List (String × Nat))
    (Hash : List Char → String) (e : Bool) (g : Globals)
    (hinit : init env order Hash e = some g) :
    g.blobDigest
      = (if env "OCI_BLOB_DIGEST" ≠ "" then env "OCI_BLOB_DIGEST" else Hash g.configContent) ∧
    g.configContentLength = Itoa g.configContent.length ∧
    g.configContentLength = "124" ∧
    g.manifestContent =
      ("\x7b \"mediaType\": \"application/vnd.oci.image.manifest.v1+json\", \"config\":  \x7b \"digest\": \""
        ++ g.blobDigest ++
        "\", \"mediaType\": \"application/vnd.oci.image.config.v1+json\", \"size\": "
        ++ g.configContentLength ++
        " \x7d, \"layers\": [], \"schemaVersion\": 2 \x7d").toList ∧
    (env "OCI_MANIFEST_DIGEST" = "" → g.manifestDigest = Hash g.manifestContent) ∧
    (∀ d d2 l : String, d ≠ d2 → manifestSprintf d l ≠ manifestSprintf d2 l) ∧
    (∀ d l l2 : String, l ≠ l2 → manifestSprintf d l ≠ manifestSprintf d l2) ∧
    (∀ (env2 : Env) (order2 : List (String × Nat)) (Hash2 : List Char → String) (e2 : Bool)
        (g2 : Globals),
      init env2 order2 Hash2 e2 = some g2 → g2.blobDigest ≠ g.blobDigest →
        g2.manifestContent ≠ g.manifestContent ∧
        (env "OCI_MANIFEST_DIGEST" = "" → env2 "OCI_MANIFEST_DIGEST" = "" → Hash2 = Hash →
          Function.Injective Hash → g2.manifestDigest ≠ g.manifestDigest)) := by
  have h := init_eq_some hinit
  simp only [init, Bool.false_eq_true, if_false, Option.some.injEq] at h
  subst h
  dsimp only [envVarBlobDigest, envVarManifestDigest]
  have hbytes : ∀ (env2 : Env) (order2 : List (String × Nat)) (Hash2 : List Char → String)
      (e2 : Bool) (g2 : Globals),
      init env2 order2 Hash2 e2 = some g2 →
      g2.manifestContent = (manifestSprintf g2.blobDigest (Itoa (124 : Nat))).toList ∧
      (env2 "OCI_MANIFEST_DIGEST" = "" → g2.manifestDigest = Hash2 g2.manifestContent) := by
    intro env2 order2 Hash2 e2 g2 hinit2
    have hb := init_eq_some hinit2
    simp only [init, Bool.false_eq_true, if_false, Option.some.injEq] at hb
    subst hb
    dsimp only [envVarManifestDigest]
    refine ⟨rfl, ?_⟩
    intro h0; simp [h0]
  refine ⟨rfl, rfl, by decide, rfl, ?_, ?_, ?_, ?_⟩
  · intro h0; simp [h0]
  · intro d d2 l hne heq
    exact hne (manifestSprintf_left_inj d d2 l heq)
  · intro d l l2 hne heq
    exact hne (manifestSprintf_right_inj d l l2 heq)
  · intro env2 order2 Hash2 e2 g2 hinit2 hne
    obtain ⟨hm, hd⟩ := hbytes env2 order2 Hash2 e2 g2 hinit2
    have hcontent : g2.manifestContent ≠
        (manifestSprintf
          (if env "OCI_BLOB_DIGEST" ≠ "" then env "OCI_BLOB_DIGEST"
            else Hash configContentLiteral.toList)
          (Itoa (124 : Nat))).toList := by
      rw [hm]
      intro heq
      exact hne (manifestSprintf_left_inj _ _ _ (String.ext heq))
    refine ⟨hcontent, ?_⟩
    intro h0 h0b hHash hinj
    rw [hd h0b, hHash]
    simp only [h0, ne_eq, not_true_eq_false, if_false]
    intro heq
    exact hcontent (hinj heq)

/-- C6, at a concrete input: `sampleEnvOverride` resolves another config digest than
`sampleEnv`, and both the manifest bytes and the manifest digest differ. -/
theorem manifest_embeds_config_digest_and_length_witness :
    init sampleEnv testMap.reverse sampleHash false = some sampleGlobals ∧
    init sampleEnvOverride testMap sampleHash false = some sampleGlobalsOverride ∧
    sampleGlobalsOverride.blobDigest ≠ sampleGlobals.blobDigest ∧
    sampleGlobalsOverride.manifestContent ≠ sampleGlobals.manifestContent ∧
    sampleGlobalsOverride.manifestDigest ≠ sampleGlobals.manifestDigest :=
  have hne : sampleGlobalsOverride.blobDigest ≠ sampleGlobals.blobDigest := by decide
  have h := (manifest_embeds_config_digest_and_length sampleEnv testMap.reverse sampleHash
    false sampleGlobals sampleGlobals_eq).2.2.2.2.2.2.2 sampleEnvOverride testMap sampleHash
    false sampleGlobalsOverride sampleGlobalsOverride_eq hne
  ⟨sampleGlobals_eq, sampleGlobalsOverride_eq, hne, h.1,
    h.2 (by decide) (by decide) rfl sampleHash_injective⟩

/-! ## Lemmas on the discovery steps -/

theorem index_eq_some {α : Type} {xs : List α} {i : Int} {a : α} (h : index xs i = some a) :
    0 ≤ i ∧ i < (xs.length : Int) := by
  unfold index at h
  split at h
  · assumption
  · cases h

theorem index_length_sub_one {α : Type} (xs : List α) (h : 0 < xs.length) :
    index xs ((xs.length : Int) - 1) = xs.getLast? := by
  unfold index
  rw [if_pos (by omega)]
  have hnat : ((xs.length : Int) - 1).toNat = xs.length - 1 := by omega
  rw [hnat, List.get?_eq_getElem?, List.getLast?_eq_getElem?]

theorem Itoa_natCast (n : Nat) : Itoa (n : Int) = toString n := rfl

theorem startByLast_outcome_ne_pass (g : Globals) (env : Env) (order : List (String × Nat))
    (discovery : Nat) (unmarshal : List Char → Option TagList) (Do : Request → DoResult)
    (st : DiscoveryState) :
    (startByLast g env order discovery unmarshal Do st).outcome ≠ Outcome.pass := by
  unfold startByLast
  split
  · rename_i skipped hskip
    unfold SkipIfDisabled at hskip
    split at hskip
    · cases hskip; simp
    · cases hskip
  · dsimp only
    repeat' split
    all_goals first
      | (simp; done)
      | (exfalso
         have hlt := (index_eq_some ‹index _ (Int.tdiv _ 2) = some _›).2
         simp only [not_not] at *
         omega)

theorem tdiv_two_natCast {n : Int} {R : Nat} (hR : n = (R : Int)) :
    Int.tdiv n 2 = ((R / 2 : Nat) : Int) := by
  rw [hR]
  exact (Int.ofNat_tdiv R 2).symm

theorem limitByN_requests_and_pass (g : Globals) (env : Env)
    (order : List (String × Nat)) (discovery : Nat) (unmarshal : List Char → Option TagList)
    (Do : Request → DoResult) (st : DiscoveryState) (R : Nat)
    (henabled : userDisabled g.testsToRun discovery = false) (hR : st.numTags = (R : Int)) :
    (limitByN g env order discovery unmarshal Do st).requests
      = [(NewRequest "GET" "/v2/<name>/tags/list").SetQueryParam "n" (toString (R / 2))] ∧
    ((limitByN g env order discovery unmarshal Do st).outcome = Outcome.pass ↔
      ∃ resp : Response,
        (Do ((NewRequest "GET" "/v2/<name>/tags/list").SetQueryParam "n"
          (toString (R / 2)))).resp = some resp ∧
        (Do ((NewRequest "GET" "/v2/<name>/tags/list").SetQueryParam "n"
          (toString (R / 2)))).err = false ∧
        resp.statusCode = 200 ∧ (getTagList unmarshal resp.body).length = R / 2) := by
  have hdiv := tdiv_two_natCast hR
  refine ⟨?_, ?_⟩
  · simp only [limitByN, SkipIfDisabled, henabled, hdiv, Itoa_natCast, Bool.false_eq_true,
      if_false]
    repeat' split
    all_goals rfl
  · simp only [limitByN, SkipIfDisabled, henabled, hdiv, Itoa_natCast, Bool.false_eq_true,
      if_false]
    repeat' split
    all_goals simp_all
    all_goals omega

theorem startByLast_requests_carry_n (g : Globals) (env : Env)
    (order : List (String × Nat)) (discovery : Nat) (unmarshal : List Char → Option TagList)
    (Do : Request → DoResult) (st : DiscoveryState) (R : Nat)
    (henabled : userDisabled g.testsToRun discovery = false) (hR : st.numTags = (R : Int)) :
    (startByLast g env order discovery unmarshal Do st).requests.head?
      = some ((NewRequest "GET" "/v2/<name>/tags/list").SetQueryParam "n"
          (toString (R / 2))) ∧
    (∀ req ∈ (startByLast g env order discovery unmarshal Do st).requests,
      req.queryParams.lookup "n" = some (toString (R / 2))) := by
  have hdiv := tdiv_two_natCast hR
  refine ⟨?_, ?_⟩
  · simp only [startByLast, SkipIfDisabled, henabled, hdiv, Itoa_natCast, Bool.false_eq_true,
      if_false]
    repeat' split
    all_goals simp
  · simp only [startByLast, SkipIfDisabled, henabled, hdiv, Itoa_natCast, Bool.false_eq_true,
      if_false]
    repeat' split
    all_goals simp [Request.SetQueryParam, NewRequest, List.lookup]

theorem startByLast_count_bound (g : Globals) (env : Env)
    (order : List (String × Nat)) (discovery : Nat) (unmarshal : List Char → Option TagList)
    (Do : Request → DoResult) (st : DiscoveryState) (R : Nat)
    (resp1 : Response) (last : String) (resp2 : Response)
    (henabled : userDisabled g.testsToRun discovery = false) (hR : st.numTags = (R : Int))
    (hresp1 : (Do ((NewRequest "GET" "/v2/<name>/tags/list").SetQueryParam "n"
      (toString (R / 2)))).resp = some resp1)
    (hidx : index (getTagList unmarshal resp1.body) (((R / 2 : Nat) : Int) - 1) = some last)
    (hresp2 : (Do (((NewRequest "GET" "/v2/<name>/tags/list").SetQueryParam "n"
      (toString (R / 2))).SetQueryParam "last" last)).resp = some resp2)
    (herr2 : (Do (((NewRequest "GET" "/v2/<name>/tags/list").SetQueryParam "n"
      (toString (R / 2))).SetQueryParam "last" last)).err = false)
    (hstatus2 : resp2.statusCode = 200) :
    (startByLast g env order discovery unmarshal Do st).requests
      = [ (NewRequest "GET" "/v2/<name>/tags/list").SetQueryParam "n" (toString (R / 2)),
          ((NewRequest "GET" "/v2/<name>/tags/list").SetQueryParam "n"
            (toString (R / 2))).SetQueryParam "last" last ] ∧
    ((startByLast g env order discovery unmarshal Do st).outcome = Outcome.fail ↔
      R / 2 < (getTagList unmarshal resp2.body).length) ∧
    ((startByLast g env order discovery unmarshal Do st).outcome = Outcome.panicked ↔
      (getTagList unmarshal resp2.body).length ≤ R / 2) := by
  have hdiv := tdiv_two_natCast hR
  by_cases hle : (getTagList unmarshal resp2.body).length ≤ R / 2
  · have hle2 : ((getTagList unmarshal resp2.body).length : Int) ≤ ((R / 2 : Nat) : Int) := by
      omega
    have hnone : index (getTagList unmarshal resp2.body) ((R / 2 : Nat) : Int) = none := by
      unfold index
      rw [if_neg]
      omega
    simp only [startByLast, SkipIfDisabled, henabled, hdiv, Itoa_natCast, Bool.false_eq_true,
      if_false, hresp1, hidx, hresp2, herr2, hstatus2, ne_eq, not_true_eq_false, hle2,
      hnone]
    refine ⟨trivial, ?_, ?_⟩
    · constructor
      · intro h; cases h
      · intro h; omega
    · constructor
      · intro _; exact hle
      · intro _; trivial
  · have hle2 : ¬ ((getTagList unmarshal resp2.body).length : Int) ≤ ((R / 2 : Nat) : Int) := by
      omega
    simp only [startByLast, SkipIfDisabled, henabled, hdiv, Itoa_natCast, Bool.false_eq_true,
      if_false, hresp1, hidx, hresp2, herr2, hstatus2, ne_eq, not_true_eq_false, hle2,
      not_false_eq_true, if_true]
    refine ⟨trivial, ?_, ?_⟩
    · constructor
      · intro _; omega
      · intro _; trivial
    · constructor
      · intro h; cases h
      · intro h; exact absurd h hle

/-- C3: the `n` step passes on a body that does not decode when it asked for zero tags.
`sampleRegistryBadBody` answers status 200 with a body that `json.Unmarshal` rejects; the
listing step leaves `numTags = 0`, the `n` step sends `n=0` and passes, though the response
has no decoded tag list, and it passes likewise from `numTags = 1`.  The rest of the claim
holds for every count `R` left in `numTags`: the step sends one request with `n` the
decimal string of `R / 2` (floor division; `n=1` for `R = 3`); it passes exactly when
`client.Do` returns no error and a response of status 200 for which `getTagList` gives
exactly `R / 2` tags; so on a body that decodes it passes exactly when the status is 200 and
the decoded tag list has exactly `R / 2` entries, and on a body that does not decode exactly
when the status is 200 and `R / 2 = 0`.  The `last` step starts with the same request, every
request it sends carries `n = R / 2`, and whenever the registry answers its first request
with a page that has an element at index `R / 2 - 1` and its continuation request with
status 200, both requests are sent and the step reports a failed assertion exactly when the
continuation page has more than `R / 2` tags (against `sampleRegistryLongPage`, which answers
the continuation with four tags for `n=2`, it fails). -/
theorem limitByN_exact_count_except_undecodable_body :
    sampleUnmarshal sampleBadResponse.body = none ∧
    sampleStateBadBodyListed.numTags = 0 ∧
    (limitByN sampleGlobalsTagList sampleEnvTagList testMap contentDiscovery sampleUnmarshal
      sampleRegistryBadBody sampleStateBadBodyListed).requests
      = [(NewRequest "GET" "/v2/<name>/tags/list").SetQueryParam "n" "0"] ∧
    (limitByN sampleGlobalsTagList sampleEnvTagList testMap contentDiscovery sampleUnmarshal
      sampleRegistryBadBody sampleStateBadBodyListed).outcome = Outcome.pass ∧
    (limitByN sampleGlobalsTagList sampleEnvTagList testMap contentDiscovery sampleUnmarshal
      sampleRegistryBadBody { DiscoveryState.initial with numTags := 1 }).outcome
      = Outcome.pass ∧
    (limitByN sampleGlobalsTagList sampleEnvTagList testMap contentDiscovery sampleUnmarshal
      sampleRegistry { DiscoveryState.initial with numTags := 3 }).requests
      = [(NewRequest "GET" "/v2/<name>/tags/list").SetQueryParam "n" "1"] ∧
    (startByLast sampleGlobalsTagList sampleEnvTagList testMap contentDiscovery
      sampleUnmarshal sampleRegistryLongPage sampleStateLimited).requests
      = [ (NewRequest "GET" "/v2/<name>/tags/list").SetQueryParam "n" "2",
          ((NewRequest "GET" "/v2/<name>/tags/list").SetQueryParam "n" "2").SetQueryParam
            "last" "test1" ] ∧
    (startByLast sampleGlobalsTagList sampleEnvTagList testMap contentDiscovery
      sampleUnmarshal sampleRegistryLongPage sampleStateLimited).outcome = Outcome.fail ∧
    (∀ (g : Globals) (env : Env) (order : List (String × Nat)) (discovery : Nat)
        (unmarshal : List Char → Option TagList) (Do : Request → DoResult)
        (st : DiscoveryState) (R : Nat),
      userDisabled g.testsToRun discovery = false → st.numTags = (R : Int) →
      (limitByN g env order discovery unmarshal Do st).requests
        = [(NewRequest "GET" "/v2/<name>/tags/list").SetQueryParam "n" (toString (R / 2))] ∧
      ((limitByN g env order discovery unmarshal Do st).outcome = Outcome.pass ↔
        ∃ resp : Response,
          (Do ((NewRequest "GET" "/v2/<name>/tags/list").SetQueryParam "n"
            (toString (R / 2)))).resp = some resp ∧
          (Do ((NewRequest "GET" "/v2/<name>/tags/list").SetQueryParam "n"
            (toString (R / 2)))).err = false ∧
          resp.statusCode = 200 ∧ (getTagList unmarshal resp.body).length = R / 2) ∧
      (∀ (resp : Response) (tl : TagList),
        (Do ((NewRequest "GET" "/v2/<name>/tags/list").SetQueryParam "n"
          (toString (R / 2)))).resp = some resp →
        (Do ((NewRequest "GET" "/v2/<name>/tags/list").SetQueryParam "n"
          (toString (R / 2)))).err = false →
        unmarshal resp.body = some tl →
        ((limitByN g env order discovery unmarshal Do st).outcome = Outcome.pass ↔
          resp.statusCode = 200 ∧ tl.Tags.length = R / 2)) ∧
      (∀ (resp : Response),
        (Do ((NewRequest "GET" "/v2/<name>/tags/list").SetQueryParam "n"
          (toString (R / 2)))).resp = some resp →
        (Do ((NewRequest "GET" "/v2/<name>/tags/list").SetQueryParam "n"
          (toString (R / 2)))).err = false →
        unmarshal resp.body = none →
        ((limitByN g env order discovery unmarshal Do st).outcome = Outcome.pass ↔
          resp.statusCode = 200 ∧ R / 2 = 0)) ∧
      (startByLast g env order discovery unmarshal Do st).requests.head?
        = some ((NewRequest "GET" "/v2/<name>/tags/list").SetQueryParam "n"
            (toString (R / 2))) ∧
      (∀ req ∈ (startByLast g env order discovery unmarshal Do st).requests,
        req.queryParams.lookup "n" = some (toString (R / 2))) ∧
      (∀ (resp1 : Response) (last : String) (resp2 : Response),
        (Do ((NewRequest "GET" "/v2/<name>/tags/list").SetQueryParam "n"
          (toString (R / 2)))).resp = some resp1 →
        index (getTagList unmarshal resp1.body) (((R / 2 : Nat) : Int) - 1) = some last →
        (Do (((NewRequest "GET" "/v2/<name>/tags/list").SetQueryParam "n"
          (toString (R / 2))).SetQueryParam "last" last)).resp = some resp2 →
        (Do (((NewRequest "GET" "/v2/<name>/tags/list").SetQueryParam "n"
          (toString (R / 2))).SetQueryParam "last" last)).err = false →
        resp2.statusCode = 200 →
        (startByLast g env order discovery unmarshal Do st).requests
          = [ (NewRequest "GET" "/v2/<name>/tags/list").SetQueryParam "n"
                (toString (R / 2)),
              ((NewRequest "GET" "/v2/<name>/tags/list").SetQueryParam "n"
                (toString (R / 2))).SetQueryParam "last" last ] ∧
        ((startByLast g env order discovery unmarshal Do st).outcome = Outcome.fail ↔
          R / 2 < (getTagList unmarshal resp2.body).length))) := by
  refine ⟨by decide, by decide, by decide, by decide, by decide, by decide, by decide,
    by decide, ?_⟩
  intro g env order discovery unmarshal Do st R henabled hR
  obtain ⟨hreq, hpass⟩ :=
    limitByN_requests_and_pass g env order discovery unmarshal Do st R henabled hR
  obtain ⟨hhead, hcarry⟩ :=
    startByLast_requests_carry_n g env order discovery unmarshal Do st R henabled hR
  refine ⟨hreq, hpass, ?_, ?_, hhead, hcarry, ?_⟩
  · intro resp tl hresp herr hdec
    rw [hpass]
    constructor
    · rintro ⟨resp2, h1, _, h3, h4⟩
      rw [hresp] at h1
      cases h1
      simp only [getTagList, hdec] at h4
      exact ⟨h3, h4⟩
    · rintro ⟨h3, h4⟩
      exact ⟨resp, hresp, herr, h3, by simp only [getTagList, hdec]; exact h4⟩
  · intro resp hresp herr hdec
    rw [hpass]
    constructor
    · rintro ⟨resp2, h1, _, h3, h4⟩
      rw [hresp] at h1
      cases h1
      simp only [getTagList, hdec, List.length_nil] at h4
      exact ⟨h3, h4.symm⟩
    · rintro ⟨h3, h4⟩
      exact ⟨resp, hresp, herr, h3, by simp only [getTagList, hdec, List.length_nil]; omega⟩
  · intro resp1 last resp2 hresp1 hidx hresp2 herr2 hstatus2
    obtain ⟨h1, h2, _⟩ := startByLast_count_bound g env order discovery unmarshal Do st R
      resp1 last resp2 henabled hR hresp1 hidx hresp2 herr2 hstatus2
    exact ⟨h1, h2⟩

/-- C2: the `last` step does not pass on a registry that pages as the claim asks.  Against
`sampleRegistry` the unpaginated listing is `[test0, test1, test2, test3]`, the `n` step
passes with the page `[test0, test1]`, and the `last` step sends `n=2` and then
`n=2&last=test1`, which is answered with status 200 and the page `[test2, test3]`: at most 2
tags, holding `test2`, the tag at index 2 of the unpaginated listing.  The step still ends
in a panic: by then `tagList` holds the continuation page, and `tagList[numResults]` is read
from it.  For every registry, decoder and state the step never passes. -/
theorem startByLast_never_passes :
    sampleStateListed.tagList = ["test0", "test1", "test2", "test3"] ∧
    sampleStateListed.numTags = 4 ∧
    (limitByN sampleGlobalsTagList sampleEnvTagList testMap contentDiscovery sampleUnmarshal
      sampleRegistry sampleStateListed).outcome = Outcome.pass ∧
    sampleStateLimited.tagList = ["test0", "test1"] ∧
    (startByLast sampleGlobalsTagList sampleEnvTagList testMap contentDiscovery
      sampleUnmarshal sampleRegistry sampleStateLimited).requests
      = [ (NewRequest "GET" "/v2/<name>/tags/list").SetQueryParam "n" "2",
          ((NewRequest "GET" "/v2/<name>/tags/list").SetQueryParam "n" "2").SetQueryParam
            "last" "test1" ] ∧
    (startByLast sampleGlobalsTagList sampleEnvTagList testMap contentDiscovery
      sampleUnmarshal sampleRegistry sampleStateLimited).state.tagList = ["test2", "test3"] ∧
    index sampleStateListed.tagList 2 = some "test2" ∧
    "test2" ∈ ["test2", "test3"] ∧
    (startByLast sampleGlobalsTagList sampleEnvTagList testMap contentDiscovery
      sampleUnmarshal sampleRegistry sampleStateLimited).outcome = Outcome.panicked ∧
    (∀ (g : Globals) (env : Env) (order : List (String × Nat)) (discovery : Nat)
        (unmarshal : List Char → Option TagList) (Do : Request → DoResult)
        (st : DiscoveryState),
      (startByLast g env order discovery unmarshal Do st).outcome ≠ Outcome.pass) := by
  refine ⟨by decide, by decide, by decide, by decide, by decide, by decide, by decide,
    by decide, by decide, ?_⟩
  intro g env order discovery unmarshal Do st
  exact startByLast_outcome_ne_pass g env order discovery unmarshal Do st

/-- C8: an undecodable listing body does not fail the unpaginated listing step.
`sampleRegistryBadBody` answers status 200, without transport error, with a body that
`json.Unmarshal` rejects; the step passes and goes on with the empty list that `getTagList`
substitutes, `tagList = []` and `numTags = 0`.  The next step of the suite, which decodes the
same stored body itself, fails on it; the `n` step then passes and the `last` step panics.
In general the listing step passes whenever the flag is enabled and `client.Do` returns no
error and a response of status 200, whatever `json.Unmarshal` makes of the body, while the
step that decodes the body itself fails whenever `json.Unmarshal` rejects it. -/
theorem listTags_passes_on_undecodable_body :
    sampleUnmarshal sampleBadResponse.body = none ∧
    (sampleRegistryBadBody (NewRequest "GET" "/v2/<name>/tags/list")).err = false ∧
    sampleBadResponse.statusCode = 200 ∧
    (listTags sampleGlobalsTagList sampleEnvTagList testMap contentDiscovery sampleUnmarshal
      sampleRegistryBadBody DiscoveryState.initial).outcome = Outcome.pass ∧
    (listTags sampleGlobalsTagList sampleEnvTagList testMap contentDiscovery sampleUnmarshal
      sampleRegistryBadBody DiscoveryState.initial).outcome ≠ Outcome.fail ∧
    sampleStateBadBodyListed.numTags = 0 ∧
    sampleStateBadBodyListed.tagList = [] ∧
    (getManifestByTag sampleGlobalsTagList sampleEnvTagList testMap contentDiscovery
      sampleUnmarshal sampleRegistryBadBody sampleStateBadBodyListed).outcome
      = Outcome.fail ∧
    (startByLast sampleGlobalsTagList sampleEnvTagList testMap contentDiscovery
      sampleUnmarshal sampleRegistryBadBody
      (limitByN sampleGlobalsTagList sampleEnvTagList testMap contentDiscovery
        sampleUnmarshal sampleRegistryBadBody sampleStateBadBodyListed).state).outcome
      = Outcome.panicked ∧
    (∀ (g : Globals) (env : Env) (order : List (String × Nat)) (discovery : Nat)
        (unmarshal : List Char → Option TagList) (Do : Request → DoResult)
        (st : DiscoveryState) (resp : Response),
      userDisabled g.testsToRun discovery = false →
      (Do (NewRequest "GET" "/v2/<name>/tags/list")).resp = some resp →
      (Do (NewRequest "GET" "/v2/<name>/tags/list")).err = false →
      resp.statusCode = 200 →
      (listTags g env order discovery unmarshal Do st).outcome = Outcome.pass ∧
      (unmarshal resp.body = none →
        (listTags g env order discovery unmarshal Do st).state.numTags = 0 ∧
        (listTags g env order discovery unmarshal Do st).state.tagList = [])) ∧
    (∀ (g : Globals) (env : Env) (order : List (String × Nat)) (discovery : Nat)
        (unmarshal : List Char → Option TagList) (Do : Request → DoResult)
        (st : DiscoveryState) (resp : Response),
      userDisabled g.testsToRun discovery = false →
      st.lastResponse = some resp → unmarshal resp.body = none →
      (getManifestByTag g env order discovery unmarshal Do st).outcome = Outcome.fail ∧
      (getManifestByTag g env order discovery unmarshal Do st).requests = []) := by
  refine ⟨by decide, by decide, by decide, by decide, by decide, by decide, by decide,
    by decide, by decide, ?_, ?_⟩
  · intro g env order discovery unmarshal Do st resp henabled hresp herr hstatus
    simp [listTags, SkipIfDisabled, henabled, hresp, herr, hstatus, getTagList]
    intro hnone
    simp [hnone]
  · intro g env order discovery unmarshal Do st resp henabled hlast hbad
    simp [getManifestByTag, SkipIfDisabled, henabled, hlast, hbad]

/-- C9: `init` clears `runContentDiscoverySetup` exactly when `OCI_TAG_LIST` is non-empty,
but the step "Push tags to repository" does not read it.  In `sampleEnvTagList`, where the
override is `"test0"` and push is enabled, the variable is false and the step still sends the
four manifest PUT requests for `test0 .. test3` and passes.  In general the step is the same
for any two sets of package variables that agree on `testsToRun` and `manifestContent`. -/
theorem pushTags_ignores_runContentDiscoverySetup :
    sampleEnvTagList "OCI_TAG_LIST" = "test0" ∧
    sampleGlobalsTagList.runContentDiscoverySetup = false ∧
    (pushTags sampleGlobalsTagList sampleEnvTagList testMap sampleRegistry
      DiscoveryState.initial).outcome = Outcome.pass ∧
    (pushTags sampleGlobalsTagList sampleEnvTagList testMap sampleRegistry
      DiscoveryState.initial).requests.map (fun r => (r.method, r.path, r.reference))
      = [ ("PUT", "/v2/<name>/manifests/<reference>", some "test0"),
          ("PUT", "/v2/<name>/manifests/<reference>", some "test1"),
          ("PUT", "/v2/<name>/manifests/<reference>", some "test2"),
          ("PUT", "/v2/<name>/manifests/<reference>", some "test3") ] ∧
    (∀ (env : Env) (order : List (String × Nat)) (Hash : List Char → String) (e : Bool)
        (g : Globals), init env order Hash e = some g →
      (g.runContentDiscoverySetup = false ↔ env "OCI_TAG_LIST" ≠ "") ∧
      (g.runContentDiscoverySetup = true ↔ env "OCI_TAG_LIST" = "")) ∧
    (∀ (g g2 : Globals) (env : Env) (order : List (String × Nat)) (Do : Request → DoResult)
        (st : DiscoveryState),
      g2.testsToRun = g.testsToRun → g2.manifestContent = g.manifestContent →
      pushTags g2 env order Do st = pushTags g env order Do st) := by
  refine ⟨by decide, by decide, by decide, by decide, ?_, ?_⟩
  · intro env order Hash e g hinit
    have h := init_eq_some hinit
    simp only [init, Bool.false_eq_true, if_false, Option.some.injEq] at h
    subst h
    dsimp only [envVarTagList]
    by_cases h0 : env "OCI_TAG_LIST" = "" <;> simp [h0]
  · intro g g2 env order Do st h1 h2
    unfold pushTags
    rw [h1, h2]

/-- C10, refuted as stated: the cursor of the `last` step is out of bounds when fewer than
two tags are listed.  Against `sampleRegistryOneTag` the listing leaves `numTags = 1`, the `n`
step asks for `n=0`, gets exactly `0 = 1 / 2` tags and passes, and the `last` step then reads
`tagList[-1]` from that empty page: it panics after its first request, the continuation
request never sent. -/
theorem startByLast_index_fault_below_two_tags :
    (listTags sampleGlobalsTagList sampleEnvTagList testMap contentDiscovery sampleUnmarshal
      sampleRegistryOneTag DiscoveryState.initial).state.numTags = 1 ∧
    (limitByN sampleGlobalsTagList sampleEnvTagList testMap contentDiscovery sampleUnmarshal
      sampleRegistryOneTag sampleStateOneTagListed).outcome = Outcome.pass ∧
    (limitByN sampleGlobalsTagList sampleEnvTagList testMap contentDiscovery sampleUnmarshal
      sampleRegistryOneTag sampleStateOneTagListed).state.tagList = [] ∧
    index ([] : List String) (((1 / 2 : Nat) : Int) - 1) = none ∧
    (startByLast sampleGlobalsTagList sampleEnvTagList testMap contentDiscovery
      sampleUnmarshal sampleRegistryOneTag sampleStateOneTagLimited).outcome
      = Outcome.panicked ∧
    (startByLast sampleGlobalsTagList sampleEnvTagList testMap contentDiscovery
      sampleUnmarshal sampleRegistryOneTag sampleStateOneTagLimited).requests
      = [(NewRequest "GET" "/v2/<name>/tags/list").SetQueryParam "n" "0"] := by
  refine ⟨by decide, by decide, by decide, by decide, by decide, by decide⟩

/-- C10, as amended: in the `last` step, for every unpaginated count `R ≥ 2`, with the flag
enabled, whenever the `n`-limited page that the registry returns holds exactly `R / 2` tags,
the index `R / 2 - 1` is within the bounds of that page and selects its last tag, and the
step goes on to the continuation request, sent with `n = R / 2` and `last` set to that
tag. -/
theorem startByLast_cursor_in_bounds (g : Globals) (env : Env) (order : List (String × Nat))
    (discovery : Nat) (unmarshal : List Char → Option TagList) (Do : Request → DoResult)
    (st : DiscoveryState) (R : Nat) (resp : Response)
    (henabled : userDisabled g.testsToRun discovery = false) (hR : st.numTags = (R : Int))
    (hresp : (Do ((NewRequest "GET" "/v2/<name>/tags/list").SetQueryParam "n"
      (toString (R / 2)))).resp = some resp)
    (hlen : (getTagList unmarshal resp.body).length = R / 2) (hge : 2 ≤ R) :
    ∃ last : String,
      (getTagList unmarshal resp.body).getLast? = some last ∧
      index (getTagList unmarshal resp.body) (((R / 2 : Nat) : Int) - 1) = some last ∧
      (startByLast g env order discovery unmarshal Do st).requests
        = [ (NewRequest "GET" "/v2/<name>/tags/list").SetQueryParam "n" (toString (R / 2)),
            ((NewRequest "GET" "/v2/<name>/tags/list").SetQueryParam "n"
              (toString (R / 2))).SetQueryParam "last" last ] := by
  have hdiv := tdiv_two_natCast hR
  have hpos : 0 < (getTagList unmarshal resp.body).length := by omega
  have hidx : index (getTagList unmarshal resp.body) (((R / 2 : Nat) : Int) - 1)
      = (getTagList unmarshal resp.body).getLast? := by
    rw [← hlen]
    exact index_length_sub_one _ hpos
  obtain ⟨last, hlast⟩ : ∃ last, (getTagList unmarshal resp.body).getLast? = some last := by
    apply Option.isSome_iff_exists.1
    rw [List.getLast?_isSome]
    intro hnil
    rw [hnil] at hpos
    exact absurd hpos (by decide)
  rw [hlast] at hidx
  refine ⟨last, hlast, hidx, ?_⟩
  simp only [startByLast, SkipIfDisabled, henabled, hdiv, Itoa_natCast,
    Bool.false_eq_true, if_false, hresp, hidx]
  repeat' split
  all_goals rfl

/-- C10 as amended, at a concrete input: with the four tags of `sampleRegistry` and the page
`[test0, test1]`, the cursor is `test1` and the continuation request is sent with it. -/
theorem startByLast_cursor_in_bounds_witness :
    userDisabled sampleGlobalsTagList.testsToRun contentDiscovery = false ∧
    sampleStateLimited.numTags = ((4 : Nat) : Int) ∧
    (getTagList sampleUnmarshal sampleListingFirstTwo.body).length = 4 / 2 ∧
    2 ≤ 4 ∧
    ∃ last : String,
      (getTagList sampleUnmarshal sampleListingFirstTwo.body).getLast? = some last ∧
      index (getTagList sampleUnmarshal sampleListingFirstTwo.body) (((4 / 2 : Nat) : Int) - 1)
        = some last ∧
      (startByLast sampleGlobalsTagList sampleEnvTagList testMap contentDiscovery
        sampleUnmarshal sampleRegistry sampleStateLimited).requests
        = [ (NewRequest "GET" "/v2/<name>/tags/list").SetQueryParam "n" (toString (4 / 2)),
            ((NewRequest "GET" "/v2/<name>/tags/list").SetQueryParam "n"
              (toString (4 / 2))).SetQueryParam "last" last ] :=
  ⟨by decide, by decide, by decide, by decide,
    startByLast_cursor_in_bounds sampleGlobalsTagList sampleEnvTagList testMap
      contentDiscovery sampleUnmarshal sampleRegistry sampleStateLimited 4
      sampleListingFirstTwo (by decide) (by decide) rfl (by decide) (by decide)⟩

end Conformance
